import Mathlib

/-!
Shallow embedding of `data_validation/validation_builder.py` from the
professional-services-data-validator repository.

The `ValidationBuilder` class builds a matched pair of query specifications
(source and target) from one validation configuration.  Its collaborators
`QueryBuilder`, `AggregateField` and `GroupedField` live in
`data_validation/query_builder/query_builder.py`, which is not part of the
source tree under verification; those are modelled from the specification
(sections 3, 4.1 and 6) and marked as such.  Stateful Python methods are
embedded as explicit state passing: each method becomes a function from the
builder record to (result, updated builder record), and fallible code
returns `Except BuildError`.
-/

set_option autoImplicit false

namespace DataValidation

/-- Modelled from the spec: `AggregateField` (query_builder.py is outside src/).
Section 3: an aggregate-field descriptor carries a column name and an alias;
section 4.1: it is produced by an aggregation behavior named by the
aggregation-type string, so the descriptor also records which behavior built it. -/
structure AggregateField where
  aggregation_type : String
  field_name : String
  «alias» : String
deriving DecidableEq, Repr

/-- Modelled from the spec: `GroupedField` (query_builder.py is outside src/).
Section 3: a grouped-field descriptor carries a column name, an alias and an
optional cast. -/
structure GroupedField where
  field_name : String
  «alias» : String
  cast : Option String
deriving DecidableEq, Repr

/-- Modelled from the spec: the Aggregation Resolver's closed registry of
aggregation kinds (section 4.1: "count, sum, avg, min, max, bit-level checksum
aggregations"; the exact closed set is an external collaborator concern).  In
the source this registry is the set of constructor attributes of the
`AggregateField` class, membership being checked with `hasattr`. -/
def AggregateField.registry : List String :=
  ["count", "sum", "avg", "min", "max", "bit_xor"]

/-- Modelled from the spec: `QueryBuilder` (query_builder.py is outside src/).
Section 3 `QuerySpecification`: an ordered sequence of aggregate-field
descriptors, an ordered sequence of grouped-field descriptors, and a limit. -/
structure QueryBuilder where
  aggregate_fields : List AggregateField
  grouped_fields : List GroupedField
  limit : Option Nat
deriving DecidableEq, Repr

/-- Modelled from the spec: `QueryBuilder.build_count_validator` (outside src/).
Section 4.2 edge case: empty field lists are legal and produce specifications
with empty field sequences; the synthetic count-style aggregate is supplied
upstream by configuration defaults, outside this core's responsibility. -/
def QueryBuilder.build_count_validator : QueryBuilder :=
  { aggregate_fields := [], grouped_fields := [], limit := none }

/-- Modelled from the spec: appending one aggregate descriptor to the
specification's ordered aggregate sequence. -/
def QueryBuilder.add_aggregate_field (b : QueryBuilder) (f : AggregateField) : QueryBuilder :=
  { b with aggregate_fields := b.aggregate_fields ++ [f] }

/-- Modelled from the spec: appending one grouped descriptor to the
specification's ordered grouped sequence. -/
def QueryBuilder.add_grouped_field (b : QueryBuilder) (f : GroupedField) : QueryBuilder :=
  { b with grouped_fields := b.grouped_fields ++ [f] }

/-- Modelled from the spec, section 6: the per-backend compiler consumes
`(client, schemaName, tableName, specification)` and yields a compiled query;
compilation is pure with respect to the builder (section 3: the specification
"becomes read-only once handed to the external compiler"). -/
structure CompiledQuery where
  data_client : String
  schema_name : String
  table_name : String
  specification : QueryBuilder
deriving DecidableEq, Repr

/-- Modelled from the spec, section 6: `compile(client, schemaName, tableName,
specification) → CompiledQuery`. -/
def QueryBuilder.compile (b : QueryBuilder) (data_client schema_name table_name : String) :
    CompiledQuery :=
  { data_client := data_client, schema_name := schema_name, table_name := table_name,
    specification := b }

/-- One entry of the config's `aggregates` sequence (section 6: keys
`source_column`, `target_column`, `field_alias`, `type`).  The `type` key is
read with `.get`, so it may be absent: `Option String`. -/
structure AggregateFieldConfig where
  field_alias : String
  source_column : String
  target_column : String
  type : Option String
deriving DecidableEq, Repr

/-- One entry of the config's `grouped_columns` sequence (section 6: keys
`source_column`, `target_column`, `field_alias`, `cast`).  The `cast` key is
read with `.get`, so it may be absent. -/
structure GroupedColumnConfig where
  field_alias : String
  source_column : String
  target_column : String
  cast : Option String
deriving DecidableEq, Repr

/-- The configuration mapping (section 6): recognized keys `type`,
`aggregates`, `grouped_columns`, `schema_name`, `table_name`, optional
`target_schema_name`, `target_table_name` and `limit`.  Keys read with `.get`
in the source are `Option`s. -/
structure Config where
  type : String
  aggregates : Option (List AggregateFieldConfig)
  grouped_columns : Option (List GroupedColumnConfig)
  schema_name : String
  table_name : String
  target_schema_name : Option String
  target_table_name : Option String
  limit : Option Nat
deriving DecidableEq, Repr

/-- The errors the builder can raise during construction:
`unsupportedValidationType` is the `ValueError` of `get_query_builder`,
`unknownAggregationKind` is the `Exception("Unknown Aggregation Type: ...")`
of `add_aggregate`, and `typeError` is the Python `TypeError` raised by
`hasattr(AggregateField, None)` when an aggregate entry has no `type` key
(`hasattr` requires its attribute-name argument to be a string). -/
inductive BuildError where
  | unsupportedValidationType (t : String)
  | unknownAggregationKind (t : String)
  | typeError
deriving DecidableEq, Repr

/-- The `ValidationBuilder` object's fields, as assigned in `__init__`. -/
structure ValidationBuilder where
  verbose : Bool
  config : Config
  validation_type : String
  source_client : String
  target_client : String
  source_builder : QueryBuilder
  target_builder : QueryBuilder
  aggregate_aliases : List String
  group_aliases : List String
deriving DecidableEq, Repr

/-- `ValidationBuilder.get_query_builder` (static): returns a count-validator
query builder when the validation type is `"Column"` or `"GroupedColumn"`,
otherwise raises `ValueError("Validation Builder supplied unknown type: ...")`. -/
def ValidationBuilder.get_query_builder (validation_type : String) :
    Except BuildError QueryBuilder :=
  if validation_type = "Column" ∨ validation_type = "GroupedColumn" then
    .ok QueryBuilder.build_count_validator
  else
    .error (.unsupportedValidationType validation_type)

/-- `ValidationBuilder.get_config_aggregates`:
`self.config.get(consts.CONFIG_AGGREGATES) or []`. -/
def ValidationBuilder.get_config_aggregates (vb : ValidationBuilder) :
    List AggregateFieldConfig :=
  vb.config.aggregates.getD []

/-- `ValidationBuilder.get_config_query_groups`:
`self.config.get(consts.CONFIG_GROUPED_COLUMNS) or []`. -/
def ValidationBuilder.get_config_query_groups (vb : ValidationBuilder) :
    List GroupedColumnConfig :=
  vb.config.grouped_columns.getD []

/-- `ValidationBuilder.get_aggregate_aliases`. -/
def ValidationBuilder.get_aggregate_aliases (vb : ValidationBuilder) : List String :=
  vb.aggregate_aliases

/-- `ValidationBuilder.get_group_aliases`. -/
def ValidationBuilder.get_group_aliases (vb : ValidationBuilder) : List String :=
  vb.group_aliases

/-- `ValidationBuilder.add_aggregate`: reads alias, source and target column
names and the aggregation type from the aggregate entry; `hasattr` on a `None`
type raises `TypeError`, an unregistered type raises the "Unknown Aggregation
Type" exception; otherwise one source descriptor (from the source column) and
one target descriptor (from the target column) are appended under the shared
alias, and the alias is appended to `aggregate_aliases`. -/
def ValidationBuilder.add_aggregate (vb : ValidationBuilder)
    (aggregate_field : AggregateFieldConfig) : Except BuildError ValidationBuilder :=
  let «alias» := aggregate_field.field_alias
  let source_field_name := aggregate_field.source_column
  let target_field_name := aggregate_field.target_column
  match aggregate_field.type with
  | none => .error .typeError
  | some aggregate_type =>
    if AggregateField.registry.contains aggregate_type then
      let source_agg : AggregateField :=
        { aggregation_type := aggregate_type, field_name := source_field_name, «alias» := «alias» }
      let target_agg : AggregateField :=
        { aggregation_type := aggregate_type, field_name := target_field_name, «alias» := «alias» }
      .ok { vb with
            source_builder := vb.source_builder.add_aggregate_field source_agg,
            target_builder := vb.target_builder.add_aggregate_field target_agg,
            aggregate_aliases := vb.aggregate_aliases ++ [«alias»] }
    else
      .error (.unknownAggregationKind aggregate_type)

/-- `ValidationBuilder.add_query_group`: builds a source grouped descriptor
from the source column and a target one from the target column, both under the
shared alias and cast, appends each to its builder and records the alias. -/
def ValidationBuilder.add_query_group (vb : ValidationBuilder)
    (grouped_field : GroupedColumnConfig) : ValidationBuilder :=
  let «alias» := grouped_field.field_alias
  let source_field : GroupedField :=
    { field_name := grouped_field.source_column, «alias» := «alias», cast := grouped_field.cast }
  let target_field : GroupedField :=
    { field_name := grouped_field.target_column, «alias» := «alias», cast := grouped_field.cast }
  { vb with
    source_builder := vb.source_builder.add_grouped_field source_field,
    target_builder := vb.target_builder.add_grouped_field target_field,
    group_aliases := vb.group_aliases ++ [«alias»] }

/-- `ValidationBuilder.add_config_aggregates`: the `for` loop over the config's
aggregates, fail-fast (an exception aborts the loop and the whole build). -/
def ValidationBuilder.add_config_aggregates (vb : ValidationBuilder) :
    Except BuildError ValidationBuilder :=
  (vb.get_config_aggregates).foldlM ValidationBuilder.add_aggregate vb

/-- `ValidationBuilder.add_config_query_groups`: the `for` loop over the
config's grouped columns. -/
def ValidationBuilder.add_config_query_groups (vb : ValidationBuilder) : ValidationBuilder :=
  (vb.get_config_query_groups).foldl ValidationBuilder.add_query_group vb

/-- `ValidationBuilder._get_query_limit`:
`self.config.get(consts.CONFIG_LIMIT)` (default `None`). -/
def ValidationBuilder.get_query_limit (vb : ValidationBuilder) : Option Nat :=
  vb.config.limit

/-- `ValidationBuilder.add_query_limit`: sets the resolved limit on both the
source and the target query builder. -/
def ValidationBuilder.add_query_limit (vb : ValidationBuilder) : ValidationBuilder :=
  let limit := vb.get_query_limit
  { vb with
    source_builder := { vb.source_builder with limit := limit },
    target_builder := { vb.target_builder with limit := limit } }

/-- `ValidationBuilder.__init__`: stores the arguments, checks the validation
type while creating the two query builders, then eagerly runs
`add_config_aggregates`, `add_config_query_groups` and `add_query_limit`.  Any
exception propagates, in which case no builder object is produced. -/
def ValidationBuilder.init (config : Config) (source_client target_client : String)
    (verbose : Bool) : Except BuildError ValidationBuilder := do
  let source_builder ← ValidationBuilder.get_query_builder config.type
  let target_builder ← ValidationBuilder.get_query_builder config.type
  let vb : ValidationBuilder :=
    { verbose := verbose, config := config, validation_type := config.type,
      source_client := source_client, target_client := target_client,
      source_builder := source_builder, target_builder := target_builder,
      aggregate_aliases := [], group_aliases := [] }
  let vb ← vb.add_config_aggregates
  let vb := vb.add_config_query_groups
  let vb := vb.add_query_limit
  return vb

/-- `ValidationBuilder.get_source_query`: compiles the source builder against
the source client and the config's `schema_name` / `table_name`.  The method
assigns no attribute, so the explicit-state embedding returns the builder
unchanged as the post-call state (the verbose `print` is a diagnostic side
effect with no bearing on state). -/
def ValidationBuilder.get_source_query (vb : ValidationBuilder) :
    CompiledQuery × ValidationBuilder :=
  let query := vb.source_builder.compile vb.source_client vb.config.schema_name
    vb.config.table_name
  (query, vb)

/-- `ValidationBuilder.get_target_query`: compiles the target builder against
the target client; `target_schema_name` / `target_table_name` fall back to the
source-side `schema_name` / `table_name` via `dict.get` defaults.  No attribute
is assigned, so the post-call state is the builder unchanged. -/
def ValidationBuilder.get_target_query (vb : ValidationBuilder) :
    CompiledQuery × ValidationBuilder :=
  let query := vb.target_builder.compile vb.target_client
    (vb.config.target_schema_name.getD vb.config.schema_name)
    (vb.config.target_table_name.getD vb.config.table_name)
  (query, vb)

/-! Characterization of a successful build.  `builtOf` is the pure
description of the builder state that `__init__` produces when no exception
is raised; the lemmas below prove that the fold over the config's sequences
indeed yields it. -/

/-- The effective aggregates sequence of a config (`.get(...) or []`). -/
def Config.aggs (c : Config) : List AggregateFieldConfig :=
  c.aggregates.getD []

/-- The effective grouped-columns sequence of a config (`.get(...) or []`). -/
def Config.grps (c : Config) : List GroupedColumnConfig :=
  c.grouped_columns.getD []

/-- Whether an aggregate entry's type resolves against the registry: the
`type` key is present and `hasattr(AggregateField, type)` holds. -/
def AggregateFieldConfig.resolves (a : AggregateFieldConfig) : Bool :=
  match a.type with
  | none => false
  | some t => AggregateField.registry.contains t

/-- The source-side aggregate descriptor an entry produces. -/
def AggregateFieldConfig.source_descr (a : AggregateFieldConfig) : AggregateField :=
  { aggregation_type := a.type.getD "", field_name := a.source_column,
    «alias» := a.field_alias }

/-- The target-side aggregate descriptor an entry produces. -/
def AggregateFieldConfig.target_descr (a : AggregateFieldConfig) : AggregateField :=
  { aggregation_type := a.type.getD "", field_name := a.target_column,
    «alias» := a.field_alias }

/-- The source-side grouped descriptor an entry produces. -/
def GroupedColumnConfig.source_descr (g : GroupedColumnConfig) : GroupedField :=
  { field_name := g.source_column, «alias» := g.field_alias, cast := g.cast }

/-- The target-side grouped descriptor an entry produces. -/
def GroupedColumnConfig.target_descr (g : GroupedColumnConfig) : GroupedField :=
  { field_name := g.target_column, «alias» := g.field_alias, cast := g.cast }

/-- The builder state right after the field assignments of `__init__`, before
the aggregate/group/limit passes. -/
def ValidationBuilder.initState (config : Config) (source_client target_client : String)
    (verbose : Bool) : ValidationBuilder :=
  { verbose := verbose, config := config, validation_type := config.type,
    source_client := source_client, target_client := target_client,
    source_builder := QueryBuilder.build_count_validator,
    target_builder := QueryBuilder.build_count_validator,
    aggregate_aliases := [], group_aliases := [] }

/-- The effect of a successful aggregate pass over a list of entries. -/
def ValidationBuilder.applyAggs (vb : ValidationBuilder) (l : List AggregateFieldConfig) :
    ValidationBuilder :=
  { vb with
    source_builder := { vb.source_builder with
      aggregate_fields :=
        vb.source_builder.aggregate_fields ++ l.map AggregateFieldConfig.source_descr },
    target_builder := { vb.target_builder with
      aggregate_fields :=
        vb.target_builder.aggregate_fields ++ l.map AggregateFieldConfig.target_descr },
    aggregate_aliases := vb.aggregate_aliases ++ l.map (·.field_alias) }

/-- The effect of the group pass over a list of entries. -/
def ValidationBuilder.applyGrps (vb : ValidationBuilder) (l : List GroupedColumnConfig) :
    ValidationBuilder :=
  { vb with
    source_builder := { vb.source_builder with
      grouped_fields :=
        vb.source_builder.grouped_fields ++ l.map GroupedColumnConfig.source_descr },
    target_builder := { vb.target_builder with
      grouped_fields :=
        vb.target_builder.grouped_fields ++ l.map GroupedColumnConfig.target_descr },
    group_aliases := vb.group_aliases ++ l.map (·.field_alias) }

/-- The builder state a successful `__init__` produces. -/
def ValidationBuilder.builtOf (config : Config) (source_client target_client : String)
    (verbose : Bool) : ValidationBuilder :=
  ((((ValidationBuilder.initState config source_client target_client verbose).applyAggs
      config.aggs).applyGrps config.grps).add_query_limit)

theorem get_query_builder_ok (t : String) (h : t = "Column" ∨ t = "GroupedColumn") :
    ValidationBuilder.get_query_builder t = .ok QueryBuilder.build_count_validator := by
  rcases h with h | h <;> subst h <;> rfl

theorem applyAggs_nil (vb : ValidationBuilder) : vb.applyAggs [] = vb := by
  obtain ⟨vrb, cfg, vt, sc, tc, sb, tb, aas, gas⟩ := vb
  obtain ⟨sa, sg, sl⟩ := sb
  obtain ⟨ta, tg, tl⟩ := tb
  simp [ValidationBuilder.applyAggs]

theorem applyGrps_nil (vb : ValidationBuilder) : vb.applyGrps [] = vb := by
  obtain ⟨vrb, cfg, vt, sc, tc, sb, tb, aas, gas⟩ := vb
  obtain ⟨sa, sg, sl⟩ := sb
  obtain ⟨ta, tg, tl⟩ := tb
  simp [ValidationBuilder.applyGrps]

theorem exceptOkBind {ε α β : Type} (a : α) (f : α → Except ε β) :
    (Except.ok a : Except ε α) >>= f = f a := rfl

theorem exceptErrBind {ε α β : Type} (e : ε) (f : α → Except ε β) :
    (Except.error e : Except ε α) >>= f = Except.error e := rfl

theorem add_aggregate_ok (vb : ValidationBuilder) (a : AggregateFieldConfig)
    (h : a.resolves = true) :
    vb.add_aggregate a = .ok
      { vb with
        source_builder := vb.source_builder.add_aggregate_field a.source_descr,
        target_builder := vb.target_builder.add_aggregate_field a.target_descr,
        aggregate_aliases := vb.aggregate_aliases ++ [a.field_alias] } := by
  cases ht : a.type with
  | none => simp [AggregateFieldConfig.resolves, ht] at h
  | some t =>
    have h' : t ∈ AggregateField.registry := by
      simpa [AggregateFieldConfig.resolves, ht] using h
    simp [ValidationBuilder.add_aggregate, ht, h',
      AggregateFieldConfig.source_descr, AggregateFieldConfig.target_descr]

theorem applyAggs_step (vb : ValidationBuilder) (a : AggregateFieldConfig)
    (l : List AggregateFieldConfig) :
    ValidationBuilder.applyAggs
      { vb with
        source_builder := vb.source_builder.add_aggregate_field a.source_descr,
        target_builder := vb.target_builder.add_aggregate_field a.target_descr,
        aggregate_aliases := vb.aggregate_aliases ++ [a.field_alias] } l
      = vb.applyAggs (a :: l) := by
  obtain ⟨vrb, cfg, vt, sc, tc, sb, tb, aas, gas⟩ := vb
  obtain ⟨sa, sg, sl⟩ := sb
  obtain ⟨ta, tg, tl⟩ := tb
  simp [ValidationBuilder.applyAggs, QueryBuilder.add_aggregate_field]

theorem applyGrps_step (vb : ValidationBuilder) (g : GroupedColumnConfig)
    (l : List GroupedColumnConfig) :
    ValidationBuilder.applyGrps (vb.add_query_group g) l = vb.applyGrps (g :: l) := by
  obtain ⟨vrb, cfg, vt, sc, tc, sb, tb, aas, gas⟩ := vb
  obtain ⟨sa, sg, sl⟩ := sb
  obtain ⟨ta, tg, tl⟩ := tb
  simp [ValidationBuilder.applyGrps, ValidationBuilder.add_query_group,
    QueryBuilder.add_grouped_field, GroupedColumnConfig.source_descr,
    GroupedColumnConfig.target_descr]

theorem foldlM_add_aggregate_ok (l : List AggregateFieldConfig) (vb0 : ValidationBuilder)
    (h : ∀ a ∈ l, a.resolves = true) :
    l.foldlM ValidationBuilder.add_aggregate vb0 = .ok (vb0.applyAggs l) := by
  induction l generalizing vb0 with
  | nil => simp only [List.foldlM_nil, applyAggs_nil]; rfl
  | cons a l ih =>
    have ha : a.resolves = true := h a (by simp)
    have hl : ∀ b ∈ l, b.resolves = true := fun b hb => h b (by simp [hb])
    rw [List.foldlM_cons, add_aggregate_ok vb0 a ha, exceptOkBind]
    rw [ih _ hl, applyAggs_step]

theorem foldl_add_query_group_eq (l : List GroupedColumnConfig) (vb0 : ValidationBuilder) :
    l.foldl ValidationBuilder.add_query_group vb0 = vb0.applyGrps l := by
  induction l generalizing vb0 with
  | nil => simp [applyGrps_nil]
  | cons g l ih =>
    rw [List.foldl_cons, ih, applyGrps_step]

theorem add_aggregate_none (vb : ValidationBuilder) (a : AggregateFieldConfig)
    (h : a.type = none) : vb.add_aggregate a = .error .typeError := by
  simp [ValidationBuilder.add_aggregate, h]

theorem add_aggregate_unknown (vb : ValidationBuilder) (a : AggregateFieldConfig)
    (t : String) (h : a.type = some t)
    (hc : AggregateField.registry.contains t = false) :
    vb.add_aggregate a = .error (.unknownAggregationKind t) := by
  have hm : t ∉ AggregateField.registry := by simpa using hc
  simp [ValidationBuilder.add_aggregate, h, hm]

theorem foldlM_add_aggregate_err (l : List AggregateFieldConfig) (vb0 : ValidationBuilder)
    (h : ¬ ∀ a ∈ l, a.resolves = true) :
    ∃ e, l.foldlM ValidationBuilder.add_aggregate vb0 = .error e := by
  induction l generalizing vb0 with
  | nil => exact absurd (by simp) h
  | cons a l ih =>
    by_cases ha : a.resolves = true
    · have hl : ¬ ∀ b ∈ l, b.resolves = true := by
        intro hl
        exact h (by
          intro b hb
          rcases List.mem_cons.mp hb with hb | hb
          · exact hb ▸ ha
          · exact hl b hb)
      rw [List.foldlM_cons, add_aggregate_ok vb0 a ha, exceptOkBind]
      exact ih _ hl
    · have ha' : a.resolves = false := by simpa using ha
      cases htt : a.type with
      | none =>
        exact ⟨.typeError, by
          rw [List.foldlM_cons, add_aggregate_none vb0 a htt, exceptErrBind]⟩
      | some t =>
        have hc : AggregateField.registry.contains t = false := by
          simpa [AggregateFieldConfig.resolves, htt] using ha'
        exact ⟨.unknownAggregationKind t, by
          rw [List.foldlM_cons, add_aggregate_unknown vb0 a t htt hc, exceptErrBind]⟩

theorem init_ok_case (config : Config) (sc tc : String) (v : Bool)
    (hT : config.type = "Column" ∨ config.type = "GroupedColumn") :
    ValidationBuilder.init config sc tc v =
      (ValidationBuilder.initState config sc tc v).add_config_aggregates >>= fun vb =>
        pure ((vb.add_config_query_groups).add_query_limit) := by
  unfold ValidationBuilder.init
  rw [get_query_builder_ok _ hT]
  simp only [exceptOkBind]
  rfl

theorem init_eq_ok (config : Config) (sc tc : String) (v : Bool)
    (hT : config.type = "Column" ∨ config.type = "GroupedColumn")
    (hA : ∀ a ∈ config.aggs, a.resolves = true) :
    ValidationBuilder.init config sc tc v = .ok (ValidationBuilder.builtOf config sc tc v) := by
  rw [init_ok_case config sc tc v hT]
  have h1 : (ValidationBuilder.initState config sc tc v).add_config_aggregates
      = .ok ((ValidationBuilder.initState config sc tc v).applyAggs config.aggs) := by
    unfold ValidationBuilder.add_config_aggregates
    exact foldlM_add_aggregate_ok _ _ hA
  rw [h1, exceptOkBind]
  have h2 : ((ValidationBuilder.initState config sc tc v).applyAggs
        config.aggs).add_config_query_groups
      = ((ValidationBuilder.initState config sc tc v).applyAggs config.aggs).applyGrps
        config.grps := by
    unfold ValidationBuilder.add_config_query_groups
    exact foldl_add_query_group_eq _ _
  rw [h2]
  rfl

theorem init_eq_error_type (config : Config) (sc tc : String) (v : Bool)
    (hT : ¬(config.type = "Column" ∨ config.type = "GroupedColumn")) :
    ValidationBuilder.init config sc tc v
      = .error (.unsupportedValidationType config.type) := by
  unfold ValidationBuilder.init ValidationBuilder.get_query_builder
  rw [if_neg hT]
  rfl

theorem init_eq_error_fold (config : Config) (sc tc : String) (v : Bool) (e : BuildError)
    (hT : config.type = "Column" ∨ config.type = "GroupedColumn")
    (h : config.aggs.foldlM ValidationBuilder.add_aggregate
        (ValidationBuilder.initState config sc tc v) = .error e) :
    ValidationBuilder.init config sc tc v = .error e := by
  rw [init_ok_case config sc tc v hT]
  have h1 : (ValidationBuilder.initState config sc tc v).add_config_aggregates = .error e := by
    unfold ValidationBuilder.add_config_aggregates
    exact h
  rw [h1, exceptErrBind]

theorem init_ok_inv (config : Config) (sc tc : String) (v : Bool) (vb : ValidationBuilder)
    (h : ValidationBuilder.init config sc tc v = .ok vb) :
    (config.type = "Column" ∨ config.type = "GroupedColumn") ∧
    (∀ a ∈ config.aggs, a.resolves = true) ∧
    vb = ValidationBuilder.builtOf config sc tc v := by
  by_cases hT : config.type = "Column" ∨ config.type = "GroupedColumn"
  · by_cases hA : ∀ a ∈ config.aggs, a.resolves = true
    · refine ⟨hT, hA, ?_⟩
      rw [init_eq_ok config sc tc v hT hA] at h
      injection h with h
      exact h.symm
    · obtain ⟨e, he⟩ := foldlM_add_aggregate_err config.aggs _ hA
      rw [init_eq_error_fold config sc tc v e hT he] at h
      cases h
  · rw [init_eq_error_type config sc tc v hT] at h
    cases h

/-! Projections of the successful build result. -/

theorem builtOf_config (c : Config) (sc tc : String) (v : Bool) :
    (ValidationBuilder.builtOf c sc tc v).config = c := rfl

theorem builtOf_source_aggregate_fields (c : Config) (sc tc : String) (v : Bool) :
    (ValidationBuilder.builtOf c sc tc v).source_builder.aggregate_fields
      = c.aggs.map AggregateFieldConfig.source_descr := by
  simp [ValidationBuilder.builtOf, ValidationBuilder.initState, ValidationBuilder.applyAggs,
    ValidationBuilder.applyGrps, ValidationBuilder.add_query_limit,
    QueryBuilder.build_count_validator]

theorem builtOf_target_aggregate_fields (c : Config) (sc tc : String) (v : Bool) :
    (ValidationBuilder.builtOf c sc tc v).target_builder.aggregate_fields
      = c.aggs.map AggregateFieldConfig.target_descr := by
  simp [ValidationBuilder.builtOf, ValidationBuilder.initState, ValidationBuilder.applyAggs,
    ValidationBuilder.applyGrps, ValidationBuilder.add_query_limit,
    QueryBuilder.build_count_validator]

theorem builtOf_source_grouped_fields (c : Config) (sc tc : String) (v : Bool) :
    (ValidationBuilder.builtOf c sc tc v).source_builder.grouped_fields
      = c.grps.map GroupedColumnConfig.source_descr := by
  simp [ValidationBuilder.builtOf, ValidationBuilder.initState, ValidationBuilder.applyAggs,
    ValidationBuilder.applyGrps, ValidationBuilder.add_query_limit,
    QueryBuilder.build_count_validator]

theorem builtOf_target_grouped_fields (c : Config) (sc tc : String) (v : Bool) :
    (ValidationBuilder.builtOf c sc tc v).target_builder.grouped_fields
      = c.grps.map GroupedColumnConfig.target_descr := by
  simp [ValidationBuilder.builtOf, ValidationBuilder.initState, ValidationBuilder.applyAggs,
    ValidationBuilder.applyGrps, ValidationBuilder.add_query_limit,
    QueryBuilder.build_count_validator]

theorem builtOf_aggregate_aliases (c : Config) (sc tc : String) (v : Bool) :
    (ValidationBuilder.builtOf c sc tc v).aggregate_aliases
      = c.aggs.map (·.field_alias) := by
  simp [ValidationBuilder.builtOf, ValidationBuilder.initState, ValidationBuilder.applyAggs,
    ValidationBuilder.applyGrps, ValidationBuilder.add_query_limit]

theorem builtOf_group_aliases (c : Config) (sc tc : String) (v : Bool) :
    (ValidationBuilder.builtOf c sc tc v).group_aliases
      = c.grps.map (·.field_alias) := by
  simp [ValidationBuilder.builtOf, ValidationBuilder.initState, ValidationBuilder.applyAggs,
    ValidationBuilder.applyGrps, ValidationBuilder.add_query_limit]

theorem builtOf_source_limit (c : Config) (sc tc : String) (v : Bool) :
    (ValidationBuilder.builtOf c sc tc v).source_builder.limit = c.limit := rfl

theorem builtOf_target_limit (c : Config) (sc tc : String) (v : Bool) :
    (ValidationBuilder.builtOf c sc tc v).target_builder.limit = c.limit := rfl

theorem resolves_iff (a : AggregateFieldConfig) :
    a.resolves = true
      ↔ ∃ t, a.type = some t ∧ AggregateField.registry.contains t = true := by
  cases ht : a.type <;> simp [AggregateFieldConfig.resolves, ht]

theorem filterKeyMap {α β : Type} (key : α → String) (d : α → β) (bk : β → String)
    (hk : ∀ x, bk (d x) = key x) :
    ∀ l : List α, (l.map key).Nodup → ∀ a ∈ l,
      (l.map d).filter (fun f => bk f == key a) = [d a] := by
  intro l
  induction l with
  | nil => intro _ a ha; exact absurd ha (List.not_mem_nil a)
  | cons x l ih =>
    intro hn a ha
    rw [List.map_cons, List.nodup_cons] at hn
    rcases List.mem_cons.mp ha with h1 | h1
    · subst h1
      rw [List.map_cons, List.filter_cons]
      have hx : (bk (d a) == key a) = true := by rw [hk]; exact beq_self_eq_true _
      rw [if_pos hx]
      have hnil : (l.map d).filter (fun f => bk f == key a) = [] := by
        rw [List.filter_eq_nil_iff]
        intro f hf hbeq
        obtain ⟨y, hy, rfl⟩ := List.mem_map.mp hf
        rw [hk y] at hbeq
        have hke : key y = key a := by simpa using hbeq
        exact hn.1 (hke ▸ List.mem_map_of_mem key hy)
      rw [hnil]
    · have hne : (bk (d x) == key a) = false := by
        rw [hk x, beq_eq_false_iff_ne]
        intro he
        exact hn.1 (he ▸ List.mem_map_of_mem key h1)
      rw [List.map_cons, List.filter_cons, hne]
      simp only [Bool.false_eq_true, if_false]
      exact ih hn.2 a h1

/-! Concrete configurations used to instantiate the theorems below (the
grouped-column example of section 8 of the spec, and variations). -/

/-- The worked example of spec section 8. -/
def exCfg : Config :=
  { type := "GroupedColumn",
    aggregates := some [{ field_alias := "sum_amount", source_column := "amount",
                          target_column := "amt", type := some "sum" }],
    grouped_columns := some [{ field_alias := "region", source_column := "region",
                               target_column := "region_cd", cast := some "string" }],
    schema_name := "s", table_name := "t",
    target_schema_name := none, target_table_name := none, limit := some 100 }

/-- A column validation with no limit key. -/
def cfgNoLimit : Config := { exCfg with type := "Column", limit := none }

/-- A column validation with limit 500. -/
def cfgLimit500 : Config := { exCfg with type := "Column", limit := some 500 }

/-- A config with an unsupported validation type. -/
def cfgBogus : Config := { exCfg with type := "Bogus" }

/-- A config whose second aggregate names an unregistered aggregation kind. -/
def cfgBadAgg : Config :=
  { exCfg with aggregates := some [
      { field_alias := "count_id", source_column := "id", target_column := "id",
        type := some "count" },
      { field_alias := "bad", source_column := "x", target_column := "y",
        type := some "bogus_kind" }] }

/-- A config whose aggregate entry lacks the `type` key. -/
def cfgNoneType : Config :=
  { exCfg with aggregates := some [
      { field_alias := "a", source_column := "x", target_column := "y", type := none }] }

/-- A config with no aggregates and no grouped columns. -/
def cfgEmpty : Config :=
  { exCfg with type := "Column", aggregates := none, grouped_columns := none }

/-- A config in which two aggregate entries share the alias `"dup"` and two
grouped-column entries also share the alias `"dup"`. -/
def cfgDup : Config :=
  { exCfg with
    aggregates := some [
      { field_alias := "dup", source_column := "a1", target_column := "b1",
        type := some "sum" },
      { field_alias := "dup", source_column := "a2", target_column := "b2",
        type := some "max" }],
    grouped_columns := some [
      { field_alias := "dup", source_column := "g1", target_column := "h1",
        cast := none },
      { field_alias := "dup", source_column := "g2", target_column := "h2",
        cast := some "string" }] }

/-- A config overriding the target-side schema and table names. -/
def cfgOverride : Config :=
  { exCfg with target_schema_name := some "ts", target_table_name := some "tt" }

/-- The builder built from `exCfg`. -/
def vbEx : ValidationBuilder := ValidationBuilder.builtOf exCfg "srcC" "tgtC" false

/-- The builder built from `cfgNoLimit`. -/
def vbNoLimit : ValidationBuilder := ValidationBuilder.builtOf cfgNoLimit "srcC" "tgtC" false

/-- The builder built from `cfgLimit500`. -/
def vbLimit500 : ValidationBuilder := ValidationBuilder.builtOf cfgLimit500 "srcC" "tgtC" false

/-- The builder built from `cfgOverride`. -/
def vbOverride : ValidationBuilder := ValidationBuilder.builtOf cfgOverride "srcC" "tgtC" false

/-- C3: for every config whose validationType is outside the closed set
{Column, GroupedColumn}, construction fails with UnsupportedValidationType and
halts immediately producing no partial specification (no builder value is
produced at all); for a validationType in the set, the check of
`get_query_builder` passes. -/
theorem C3_unsupported_validation_type (config : Config) (sc tc : String) (v : Bool)
    (h : config.type ≠ "Column" ∧ config.type ≠ "GroupedColumn") :
    ValidationBuilder.init config sc tc v
      = .error (.unsupportedValidationType config.type)
    ∧ (∀ vb, ValidationBuilder.init config sc tc v ≠ .ok vb)
    ∧ (∀ t : String, t = "Column" ∨ t = "GroupedColumn" →
        ValidationBuilder.get_query_builder t = .ok QueryBuilder.build_count_validator) := by
  have h1 : ValidationBuilder.init config sc tc v
      = .error (.unsupportedValidationType config.type) := by
    apply init_eq_error_type
    rintro (hc | hc)
    · exact h.1 hc
    · exact h.2 hc
  refine ⟨h1, ?_, fun t ht => get_query_builder_ok t ht⟩
  intro vb hvb
  rw [h1] at hvb
  cases hvb

/-- Witness for C3 at the concrete config with validation type "Bogus". -/
theorem C3_witness :
    ValidationBuilder.init cfgBogus "srcC" "tgtC" false
      = .error (.unsupportedValidationType cfgBogus.type)
    ∧ (∀ vb, ValidationBuilder.init cfgBogus "srcC" "tgtC" false ≠ .ok vb)
    ∧ (∀ t : String, t = "Column" ∨ t = "GroupedColumn" →
        ValidationBuilder.get_query_builder t = .ok QueryBuilder.build_count_validator) :=
  C3_unsupported_validation_type cfgBogus "srcC" "tgtC" false (by decide)

/-- C4: for every config whose construction succeeds, the aggregate-alias
registry has exactly as many entries as the config's aggregate specs and the
group-alias registry exactly as many as its grouped specs, each listing the
specs' aliases in declaration order. -/
theorem C4_alias_registries (config : Config) (sc tc : String) (v : Bool)
    (vb : ValidationBuilder) (h : ValidationBuilder.init config sc tc v = .ok vb) :
    vb.get_aggregate_aliases = config.aggs.map (·.field_alias)
    ∧ vb.get_aggregate_aliases.length = config.aggs.length
    ∧ vb.get_group_aliases = config.grps.map (·.field_alias)
    ∧ vb.get_group_aliases.length = config.grps.length := by
  obtain ⟨hT, hA, rfl⟩ := init_ok_inv config sc tc v vb h
  have h1 : (ValidationBuilder.builtOf config sc tc v).get_aggregate_aliases
      = config.aggs.map (·.field_alias) := builtOf_aggregate_aliases config sc tc v
  have h2 : (ValidationBuilder.builtOf config sc tc v).get_group_aliases
      = config.grps.map (·.field_alias) := builtOf_group_aliases config sc tc v
  refine ⟨h1, ?_, h2, ?_⟩
  · rw [h1, List.length_map]
  · rw [h2, List.length_map]

/-- Witness for C4 at the section-8 example config (one aggregate, one group). -/
theorem C4_witness :
    vbEx.get_aggregate_aliases = exCfg.aggs.map (·.field_alias)
    ∧ vbEx.get_aggregate_aliases.length = exCfg.aggs.length
    ∧ vbEx.get_group_aliases = exCfg.grps.map (·.field_alias)
    ∧ vbEx.get_group_aliases.length = exCfg.grps.length :=
  C4_alias_registries exCfg "srcC" "tgtC" false vbEx (by rfl)

/-- C5: for every config whose construction succeeds, the limit is set
identically on both the source and target query specifications, namely to the
config's (optional) limit value. -/
theorem C5_limit_parity (config : Config) (sc tc : String) (v : Bool)
    (vb : ValidationBuilder) (h : ValidationBuilder.init config sc tc v = .ok vb) :
    vb.source_builder.limit = config.limit
    ∧ vb.target_builder.limit = config.limit := by
  obtain ⟨hT, hA, rfl⟩ := init_ok_inv config sc tc v vb h
  exact ⟨builtOf_source_limit config sc tc v, builtOf_target_limit config sc tc v⟩

/-- Witness for C5: with no limit key both specifications report an unset
limit, and with limit 500 both report exactly 500. -/
theorem C5_witness :
    (vbNoLimit.source_builder.limit = none ∧ vbNoLimit.target_builder.limit = none)
    ∧ (vbLimit500.source_builder.limit = some 500
        ∧ vbLimit500.target_builder.limit = some 500) :=
  ⟨C5_limit_parity cfgNoLimit "srcC" "tgtC" false vbNoLimit (by rfl),
   C5_limit_parity cfgLimit500 "srcC" "tgtC" false vbLimit500 (by rfl)⟩

/-- C8: for every config with a supported validation type and empty-or-absent
aggregates and grouped_columns, construction succeeds and both specifications
have empty aggregate-field and grouped-field sequences and empty alias
registries. -/
theorem C8_empty_config (config : Config) (sc tc : String) (v : Bool)
    (hT : config.type = "Column" ∨ config.type = "GroupedColumn")
    (hA : config.aggs = []) (hG : config.grps = []) :
    ∃ vb, ValidationBuilder.init config sc tc v = .ok vb
      ∧ vb.source_builder.aggregate_fields = []
      ∧ vb.source_builder.grouped_fields = []
      ∧ vb.target_builder.aggregate_fields = []
      ∧ vb.target_builder.grouped_fields = []
      ∧ vb.get_aggregate_aliases = []
      ∧ vb.get_group_aliases = [] := by
  refine ⟨ValidationBuilder.builtOf config sc tc v,
    init_eq_ok config sc tc v hT (by rw [hA]; intro a ha; cases ha),
    ?_, ?_, ?_, ?_, ?_, ?_⟩
  · rw [builtOf_source_aggregate_fields, hA]; rfl
  · rw [builtOf_source_grouped_fields, hG]; rfl
  · rw [builtOf_target_aggregate_fields, hA]; rfl
  · rw [builtOf_target_grouped_fields, hG]; rfl
  · have := builtOf_aggregate_aliases config sc tc v
    rw [ValidationBuilder.get_aggregate_aliases] at *
    rw [this, hA]; rfl
  · have := builtOf_group_aliases config sc tc v
    rw [ValidationBuilder.get_group_aliases] at *
    rw [this, hG]; rfl

/-- Witness for C8 at the config with absent aggregates and grouped columns. -/
theorem C8_witness :
    ∃ vb, ValidationBuilder.init cfgEmpty "srcC" "tgtC" false = .ok vb
      ∧ vb.source_builder.aggregate_fields = []
      ∧ vb.source_builder.grouped_fields = []
      ∧ vb.target_builder.aggregate_fields = []
      ∧ vb.target_builder.grouped_fields = []
      ∧ vb.get_aggregate_aliases = []
      ∧ vb.get_group_aliases = [] :=
  C8_empty_config cfgEmpty "srcC" "tgtC" false (by decide) (by rfl) (by rfl)

/-- C1: for every config whose construction succeeds (with the data model's
alias-uniqueness invariant), each declared aggregate spec and group spec puts
exactly one descriptor under its alias into the source specification (built
from the spec's source column) and exactly one into the target specification
(built from the spec's target column), both under the identical alias, with
the identical aggregation type, and for group specs the identical cast. -/
theorem C1_descriptor_parity (config : Config) (sc tc : String) (v : Bool)
    (vb : ValidationBuilder) (h : ValidationBuilder.init config sc tc v = .ok vb)
    (hA : (config.aggs.map (·.field_alias)).Nodup)
    (hG : (config.grps.map (·.field_alias)).Nodup) :
    (∀ a ∈ config.aggs, ∃ t : String,
        vb.source_builder.aggregate_fields.filter (fun f => f.«alias» == a.field_alias)
          = [{ aggregation_type := t, field_name := a.source_column,
               «alias» := a.field_alias }]
        ∧ vb.target_builder.aggregate_fields.filter (fun f => f.«alias» == a.field_alias)
          = [{ aggregation_type := t, field_name := a.target_column,
               «alias» := a.field_alias }])
    ∧ (∀ g ∈ config.grps,
        vb.source_builder.grouped_fields.filter (fun f => f.«alias» == g.field_alias)
          = [{ field_name := g.source_column, «alias» := g.field_alias, cast := g.cast }]
        ∧ vb.target_builder.grouped_fields.filter (fun f => f.«alias» == g.field_alias)
          = [{ field_name := g.target_column, «alias» := g.field_alias,
               cast := g.cast }]) := by
  obtain ⟨hT, hRes, rfl⟩ := init_ok_inv config sc tc v vb h
  constructor
  · intro a ha
    obtain ⟨t, ht, hc⟩ := (resolves_iff a).mp (hRes a ha)
    have hsf : (config.aggs.map AggregateFieldConfig.source_descr).filter
        (fun f => f.«alias» == a.field_alias) = [a.source_descr] :=
      filterKeyMap (fun x => x.field_alias) AggregateFieldConfig.source_descr
        (fun f => f.«alias») (fun x => rfl) config.aggs hA a ha
    have htf : (config.aggs.map AggregateFieldConfig.target_descr).filter
        (fun f => f.«alias» == a.field_alias) = [a.target_descr] :=
      filterKeyMap (fun x => x.field_alias) AggregateFieldConfig.target_descr
        (fun f => f.«alias») (fun x => rfl) config.aggs hA a ha
    refine ⟨t, ?_, ?_⟩
    · rw [builtOf_source_aggregate_fields, hsf]
      simp [AggregateFieldConfig.source_descr, ht]
    · rw [builtOf_target_aggregate_fields, htf]
      simp [AggregateFieldConfig.target_descr, ht]
  · intro g hg
    have hsf : (config.grps.map GroupedColumnConfig.source_descr).filter
        (fun f => f.«alias» == g.field_alias) = [g.source_descr] :=
      filterKeyMap (fun x => x.field_alias) GroupedColumnConfig.source_descr
        (fun f => f.«alias») (fun x => rfl) config.grps hG g hg
    have htf : (config.grps.map GroupedColumnConfig.target_descr).filter
        (fun f => f.«alias» == g.field_alias) = [g.target_descr] :=
      filterKeyMap (fun x => x.field_alias) GroupedColumnConfig.target_descr
        (fun f => f.«alias») (fun x => rfl) config.grps hG g hg
    constructor
    · rw [builtOf_source_grouped_fields, hsf]; rfl
    · rw [builtOf_target_grouped_fields, htf]; rfl

/-- Witness for C1 at the section-8 example config. -/
theorem C1_witness :
    (∀ a ∈ exCfg.aggs, ∃ t : String,
        vbEx.source_builder.aggregate_fields.filter (fun f => f.«alias» == a.field_alias)
          = [{ aggregation_type := t, field_name := a.source_column,
               «alias» := a.field_alias }]
        ∧ vbEx.target_builder.aggregate_fields.filter (fun f => f.«alias» == a.field_alias)
          = [{ aggregation_type := t, field_name := a.target_column,
               «alias» := a.field_alias }])
    ∧ (∀ g ∈ exCfg.grps,
        vbEx.source_builder.grouped_fields.filter (fun f => f.«alias» == g.field_alias)
          = [{ field_name := g.source_column, «alias» := g.field_alias, cast := g.cast }]
        ∧ vbEx.target_builder.grouped_fields.filter (fun f => f.«alias» == g.field_alias)
          = [{ field_name := g.target_column, «alias» := g.field_alias,
               cast := g.cast }]) :=
  C1_descriptor_parity exCfg "srcC" "tgtC" false vbEx (by rfl) (by decide) (by decide)

/-- C2: when the first unresolvable aggregate spec names an aggregation kind
absent from the registry (its type key being present), construction fails with
the unknown-aggregation-kind error and no builder value — hence no source or
target specification — is ever produced. -/
theorem C2_unknown_aggregation_kind (config : Config) (sc tc : String) (v : Bool)
    (pre post : List AggregateFieldConfig) (a : AggregateFieldConfig) (t : String)
    (hT : config.type = "Column" ∨ config.type = "GroupedColumn")
    (hEq : config.aggs = pre ++ a :: post)
    (hPre : ∀ b ∈ pre, b.resolves = true)
    (ht : a.type = some t)
    (hBad : AggregateField.registry.contains t = false) :
    ValidationBuilder.init config sc tc v = .error (.unknownAggregationKind t)
    ∧ ∀ vb, ValidationBuilder.init config sc tc v ≠ .ok vb := by
  have hFold : config.aggs.foldlM ValidationBuilder.add_aggregate
      (ValidationBuilder.initState config sc tc v) = .error (.unknownAggregationKind t) := by
    rw [hEq, List.foldlM_append, foldlM_add_aggregate_ok pre _ hPre, exceptOkBind,
      List.foldlM_cons, add_aggregate_unknown _ a t ht hBad, exceptErrBind]
  have h1 := init_eq_error_fold config sc tc v _ hT hFold
  refine ⟨h1, ?_⟩
  intro vb hvb
  rw [h1] at hvb
  cases hvb

/-- Witness for C2 at the config whose second aggregate names the
unregistered kind "bogus_kind" (the first one resolves). -/
theorem C2_witness :
    ValidationBuilder.init cfgBadAgg "srcC" "tgtC" false
      = .error (.unknownAggregationKind "bogus_kind")
    ∧ ∀ vb, ValidationBuilder.init cfgBadAgg "srcC" "tgtC" false ≠ .ok vb :=
  C2_unknown_aggregation_kind cfgBadAgg "srcC" "tgtC" false
    [{ field_alias := "count_id", source_column := "id", target_column := "id",
       type := some "count" }] []
    { field_alias := "bad", source_column := "x", target_column := "y",
      type := some "bogus_kind" }
    "bogus_kind" (by decide) (by rfl) (by decide) (by rfl) (by decide)

/-- C6: the source query is always compiled against the config's source
schema and table; the target query is compiled against `target_schema_name` /
`target_table_name` when present and falls back to the source values when
absent. -/
theorem C6_target_fallback (vb : ValidationBuilder) :
    (vb.get_source_query).1.schema_name = vb.config.schema_name
    ∧ (vb.get_source_query).1.table_name = vb.config.table_name
    ∧ (vb.get_target_query).1.schema_name
        = vb.config.target_schema_name.getD vb.config.schema_name
    ∧ (vb.get_target_query).1.table_name
        = vb.config.target_table_name.getD vb.config.table_name
    ∧ (vb.config.target_schema_name = none →
        (vb.get_target_query).1.schema_name = vb.config.schema_name)
    ∧ (∀ s, vb.config.target_schema_name = some s →
        (vb.get_target_query).1.schema_name = s)
    ∧ (vb.config.target_table_name = none →
        (vb.get_target_query).1.table_name = vb.config.table_name)
    ∧ (∀ s, vb.config.target_table_name = some s →
        (vb.get_target_query).1.table_name = s) := by
  refine ⟨rfl, rfl, rfl, rfl, ?_, ?_, ?_, ?_⟩
  · intro hs
    show vb.config.target_schema_name.getD vb.config.schema_name = vb.config.schema_name
    rw [hs]; rfl
  · intro s hs
    show vb.config.target_schema_name.getD vb.config.schema_name = s
    rw [hs]; rfl
  · intro hs
    show vb.config.target_table_name.getD vb.config.table_name = vb.config.table_name
    rw [hs]; rfl
  · intro s hs
    show vb.config.target_table_name.getD vb.config.table_name = s
    rw [hs]; rfl

/-- Witness for C6 at a builder without target overrides (fallback to source
schema/table) and one with both overrides present. -/
theorem C6_witness :
    ((vbEx.get_target_query).1.schema_name
        = vbEx.config.target_schema_name.getD vbEx.config.schema_name
      ∧ (vbEx.config.target_schema_name = none →
          (vbEx.get_target_query).1.schema_name = vbEx.config.schema_name))
    ∧ ((vbOverride.get_target_query).1.schema_name
        = vbOverride.config.target_schema_name.getD vbOverride.config.schema_name
      ∧ (∀ s, vbOverride.config.target_schema_name = some s →
          (vbOverride.get_target_query).1.schema_name = s)) :=
  ⟨⟨(C6_target_fallback vbEx).2.2.1, (C6_target_fallback vbEx).2.2.2.2.1⟩,
   ⟨(C6_target_fallback vbOverride).2.2.1,
    (C6_target_fallback vbOverride).2.2.2.2.2.1⟩⟩

/-- C7: compiling the source or target query does not mutate the builder —
the post-call state equals the pre-call state (so the query specifications and
alias registries are untouched) and repeated invocations return the same
compiled query. -/
theorem C7_compile_idempotent (vb : ValidationBuilder) :
    (vb.get_source_query).2 = vb
    ∧ (vb.get_target_query).2 = vb
    ∧ ((vb.get_source_query).2).get_source_query = vb.get_source_query
    ∧ ((vb.get_target_query).2).get_target_query = vb.get_target_query :=
  ⟨rfl, rfl, rfl, rfl⟩

theorem count_dup_ge_two {α : Type} (key : α → String) (s : String)
    (pre mid post : List α) (a b : α) (ha : key a = s) (hb : key b = s) :
    2 ≤ ((pre ++ a :: mid ++ b :: post).map key).count s := by
  simp only [List.map_append, List.map_cons, List.count_append, List.count_cons,
    ha, hb, beq_self_eq_true, if_true]
  omega

/-- C9: the builder never enforces alias uniqueness — a config with all
aggregation types resolvable builds successfully even if aliases repeat,
every descriptor pair is appended (each field sequence has one entry per
spec), the alias registries list the aliases in declaration order, and when
two aggregate specs share the alias `s` it occurs at least twice in the
aggregate-alias registry, just as when two group specs share `s` it occurs at
least twice in the group-alias registry. -/
theorem C9_duplicate_aliases (config : Config) (sc tc : String) (v : Bool) (s : String)
    (hT : config.type = "Column" ∨ config.type = "GroupedColumn")
    (hRes : ∀ x ∈ config.aggs, x.resolves = true) :
    ∃ vb, ValidationBuilder.init config sc tc v = .ok vb
      ∧ vb.get_aggregate_aliases = config.aggs.map (·.field_alias)
      ∧ vb.get_group_aliases = config.grps.map (·.field_alias)
      ∧ vb.source_builder.aggregate_fields.length = config.aggs.length
      ∧ vb.target_builder.aggregate_fields.length = config.aggs.length
      ∧ vb.source_builder.grouped_fields.length = config.grps.length
      ∧ vb.target_builder.grouped_fields.length = config.grps.length
      ∧ ((∃ pre mid post, ∃ a b : AggregateFieldConfig,
            config.aggs = pre ++ a :: mid ++ b :: post
            ∧ a.field_alias = s ∧ b.field_alias = s) →
          2 ≤ vb.get_aggregate_aliases.count s)
      ∧ ((∃ pre mid post, ∃ g1 g2 : GroupedColumnConfig,
            config.grps = pre ++ g1 :: mid ++ g2 :: post
            ∧ g1.field_alias = s ∧ g2.field_alias = s) →
          2 ≤ vb.get_group_aliases.count s) := by
  have hAgg : (ValidationBuilder.builtOf config sc tc v).get_aggregate_aliases
      = config.aggs.map (·.field_alias) := builtOf_aggregate_aliases config sc tc v
  have hGrp : (ValidationBuilder.builtOf config sc tc v).get_group_aliases
      = config.grps.map (·.field_alias) := builtOf_group_aliases config sc tc v
  refine ⟨ValidationBuilder.builtOf config sc tc v, init_eq_ok config sc tc v hT hRes,
    hAgg, hGrp, ?_, ?_, ?_, ?_, ?_, ?_⟩
  · rw [builtOf_source_aggregate_fields, List.length_map]
  · rw [builtOf_target_aggregate_fields, List.length_map]
  · rw [builtOf_source_grouped_fields, List.length_map]
  · rw [builtOf_target_grouped_fields, List.length_map]
  · rintro ⟨pre, mid, post, a, b, hEq, ha, hb⟩
    rw [hAgg, hEq]
    exact count_dup_ge_two (·.field_alias) s pre mid post a b ha hb
  · rintro ⟨pre, mid, post, g1, g2, hEq, h1, h2⟩
    rw [hGrp, hEq]
    exact count_dup_ge_two (·.field_alias) s pre mid post g1 g2 h1 h2

/-- Witness for C9 at the config whose two aggregates share alias "dup" and
whose two grouped columns also share alias "dup": construction succeeds and
the shared alias appears twice in each registry. -/
theorem C9_witness :
    ∃ vb, ValidationBuilder.init cfgDup "srcC" "tgtC" false = .ok vb
      ∧ vb.get_aggregate_aliases = cfgDup.aggs.map (·.field_alias)
      ∧ vb.get_group_aliases = cfgDup.grps.map (·.field_alias)
      ∧ vb.source_builder.aggregate_fields.length = cfgDup.aggs.length
      ∧ vb.target_builder.aggregate_fields.length = cfgDup.aggs.length
      ∧ vb.source_builder.grouped_fields.length = cfgDup.grps.length
      ∧ vb.target_builder.grouped_fields.length = cfgDup.grps.length
      ∧ 2 ≤ vb.get_aggregate_aliases.count "dup"
      ∧ 2 ≤ vb.get_group_aliases.count "dup" := by
  obtain ⟨vb, h1, h2, h3, h4, h5, h6, h7, h8, h9⟩ :=
    C9_duplicate_aliases cfgDup "srcC" "tgtC" false "dup" (by decide) (by decide)
  refine ⟨vb, h1, h2, h3, h4, h5, h6, h7, ?_, ?_⟩
  · exact h8 ⟨[], [], [],
      { field_alias := "dup", source_column := "a1", target_column := "b1",
        type := some "sum" },
      { field_alias := "dup", source_column := "a2", target_column := "b2",
        type := some "max" }, rfl, rfl, rfl⟩
  · exact h9 ⟨[], [], [],
      { field_alias := "dup", source_column := "g1", target_column := "h1",
        cast := none },
      { field_alias := "dup", source_column := "g2", target_column := "h2",
        cast := some "string" }, rfl, rfl, rfl⟩

/-- C10: when the first offending aggregate spec lacks its `type` key
entirely, the resolved aggregation type is `None` and construction fails, but
with the `TypeError` that `hasattr` raises on a non-string attribute name — a
failure distinct from the unknown-aggregation-kind error. -/
theorem C10_missing_type_key (config : Config) (sc tc : String) (v : Bool)
    (pre post : List AggregateFieldConfig) (a : AggregateFieldConfig)
    (hT : config.type = "Column" ∨ config.type = "GroupedColumn")
    (hEq : config.aggs = pre ++ a :: post)
    (hPre : ∀ b ∈ pre, b.resolves = true)
    (ht : a.type = none) :
    ValidationBuilder.init config sc tc v = .error .typeError
    ∧ (∀ vb, ValidationBuilder.init config sc tc v ≠ .ok vb)
    ∧ (∀ t : String, (BuildError.typeError ≠ BuildError.unknownAggregationKind t)) := by
  have hFold : config.aggs.foldlM ValidationBuilder.add_aggregate
      (ValidationBuilder.initState config sc tc v) = .error .typeError := by
    rw [hEq, List.foldlM_append, foldlM_add_aggregate_ok pre _ hPre, exceptOkBind,
      List.foldlM_cons, add_aggregate_none _ a ht, exceptErrBind]
  have h1 := init_eq_error_fold config sc tc v _ hT hFold
  refine ⟨h1, ?_, ?_⟩
  · intro vb hvb
    rw [h1] at hvb
    cases hvb
  · intro t hc
    cases hc

/-- Witness for C10 at the config whose only aggregate has no type key. -/
theorem C10_witness :
    ValidationBuilder.init cfgNoneType "srcC" "tgtC" false = .error .typeError
    ∧ (∀ vb, ValidationBuilder.init cfgNoneType "srcC" "tgtC" false ≠ .ok vb)
    ∧ (∀ t : String, (BuildError.typeError ≠ BuildError.unknownAggregationKind t)) :=
  C10_missing_type_key cfgNoneType "srcC" "tgtC" false []
    []
    { field_alias := "a", source_column := "x", target_column := "y", type := none }
    (by decide) (by rfl) (by decide) (by rfl)

end DataValidation
